import Mathlib

/-!
Shallow embedding of the imchat message-buffer service.

The embedded code is `insert_message` and `get_messages` from
`src/system.rs`, together with the surrounding data model (`Message`,
`Config`, the shared buffer `(Vec<Message>, PrimitiveDateTime)`).

Modelling choices:
* Timestamps (`time::PrimitiveDateTime`) and durations (`time::Duration`)
  are integers; `now - last > max_age` becomes integer comparison.
  The two `get_now()` observations inside one `insert_message` call are
  modelled as a single `now` parameter of the call.
* `String::len` (byte length) is modelled as `String.length`.
* `Vec<Message>` is `List Message`; `Vec::push` is `· ++ [m]`;
  `Vec::remove(0)` on a non-empty vector is `List.drop 1`.
* `Result<(), axum::http::StatusCode>` is `Except RejectStatus Unit`; the
  wire statuses 201/413/429 are recovered by `statusCode`.
-/

namespace ImChat

/-- Message payload from `src/system.rs` lines 24-28: a text content and an
author identifier. -/
structure Message where
  message : String
  author : String
deriving DecidableEq, Repr

/-- Configuration from `src/system.rs` lines 15-22 (the `key` field is used
only by the HTTP auth gate and is irrelevant to the buffer core, so it is
omitted). `max_age` is a duration in the same integer units as timestamps. -/
structure Config where
  queue_size : Nat
  max_message_size : Nat
  max_author_size : Nat
  max_age : Int
deriving DecidableEq, Repr

/-- The shared mutable buffer of `AppState` (`src/system.rs` line 11):
the ordered entries together with the `window_start` timestamp. -/
abbrev BufferState := List Message × Int

/-- The two rejection statuses `insert_message` can return
(`src/system.rs` lines 121 and 126). -/
inductive RejectStatus where
  | payloadTooLarge
  | tooManyRequests
deriving DecidableEq, Repr

/-- Wire-level HTTP status of an `insert_message` result, as mapped by
`add_message` (`src/system.rs` lines 89-92): `Ok` is 201 CREATED,
`PAYLOAD_TOO_LARGE` is 413, `TOO_MANY_REQUESTS` is 429. -/
def statusCode : Except RejectStatus Unit → Nat
  | Except.ok _ => 201
  | Except.error RejectStatus.payloadTooLarge => 413
  | Except.error RejectStatus.tooManyRequests => 429

/-- Boolean test for a rejected result. -/
def isReject : Except RejectStatus Unit → Bool
  | Except.ok _ => false
  | Except.error _ => true

/-- The staleness wipe at the head of `insert_message`
(`src/system.rs` lines 114-117): if `now - last > max_age` the entries are
cleared and `window_start` is advanced to `now`; otherwise the state is kept. -/
def wiped (config : Config) (now : Int) (st : BufferState) : BufferState :=
  if now - st.2 > config.max_age then (([] : List Message), now) else st

/-- Number of buffered entries attributed to author `a`; this is the scan
`queue.iter().filter(|m| m.author == message.author).count()` of
`src/system.rs` line 124. -/
def countAuthor (a : String) (queue : List Message) : Nat :=
  (queue.filter (fun m => m.author == a)).length

/-- The buffer core `insert_message` (`src/system.rs` lines 109-136):
staleness wipe, size check (413), per-author quota check (429), push,
one-shot trim of the oldest entry when the queue exceeds `queue_size`. -/
def insert_message (config : Config) (now : Int) (st : BufferState)
    (message : Message) : BufferState × Except RejectStatus Unit :=
  let st1 := wiped config now st
  if message.message.length > config.max_message_size then
    (st1, Except.error RejectStatus.payloadTooLarge)
  else if countAuthor message.author st1.1 ≥ config.max_author_size then
    (st1, Except.error RejectStatus.tooManyRequests)
  else
    let queue := st1.1 ++ [message]
    if queue.length > config.queue_size then
      ((queue.drop 1, st1.2), Except.ok ())
    else
      ((queue, st1.2), Except.ok ())

/-- The read handler `get_messages` (`src/system.rs` lines 101-107): it
clones the current entries and leaves the buffer state untouched; it never
consults the clock. It is the `snapshot` operation of the spec. -/
def get_messages (st : BufferState) : List Message × BufferState :=
  (st.1, st)

/-- A sequence of `append` calls from the initial empty buffer created by
`AppState::new` (`src/system.rs` line 50): each call supplies its own clock
observation and message, and the state resulting from each call feeds the
next one. -/
def run_appends (config : Config) (init_now : Int)
    (calls : List (Int × Message)) : BufferState :=
  calls.foldl (fun st c => (insert_message config c.1 st c.2).1) ([], init_now)

/-! Helper lemmas about the embedded operations. -/

/-- The staleness wipe never enlarges the entry list. -/
lemma wiped_length_le (config : Config) (now : Int) (st : BufferState) :
    (wiped config now st).1.length ≤ st.1.length := by
  unfold wiped
  split
  · simp
  · exact le_refl _

/-- One `insert_message` call keeps the queue within `queue_size` whenever it
starts within `queue_size`. -/
lemma insert_message_length_le (config : Config) (now : Int) (st : BufferState)
    (message : Message) (h : st.1.length ≤ config.queue_size) :
    ((insert_message config now st message).1).1.length ≤ config.queue_size := by
  have h1 : (wiped config now st).1.length ≤ config.queue_size :=
    le_trans (wiped_length_le config now st) h
  unfold insert_message
  dsimp only
  split
  · exact h1
  · split
    · exact h1
    · split
      · rename_i hlen
        simp only [List.length_drop, List.length_append, List.length_cons,
          List.length_nil] at *
        omega
      · rename_i hlen
        exact Nat.le_of_not_lt hlen

/-- Folding `insert_message` over any call list preserves the queue bound. -/
lemma run_fold_length_le (config : Config) (calls : List (Int × Message))
    (st : BufferState) (h : st.1.length ≤ config.queue_size) :
    ((calls.foldl (fun st c => (insert_message config c.1 st c.2).1) st).1).length
      ≤ config.queue_size := by
  induction calls generalizing st with
  | nil => exact h
  | cons c cs ih =>
      exact ih _ (insert_message_length_le config c.1 st c.2 h)

/-- The staleness wipe never increases any author's entry count. -/
lemma countAuthor_wiped_le (config : Config) (now : Int) (st : BufferState)
    (a : String) :
    countAuthor a (wiped config now st).1 ≤ countAuthor a st.1 := by
  unfold wiped
  split
  · simp [countAuthor]
  · exact le_refl _

/-- Appending one message raises exactly its author's count by one. -/
lemma countAuthor_append_single (a : String) (q : List Message) (m : Message) :
    countAuthor a (q ++ [m]) = countAuthor a q + (if m.author = a then 1 else 0) := by
  unfold countAuthor
  rw [List.filter_append]
  by_cases h : m.author = a
  · simp [h]
  · simp [h]

/-- Dropping the oldest entry never increases any author's count. -/
lemma countAuthor_drop_one_le (a : String) (q : List Message) :
    countAuthor a (q.drop 1) ≤ countAuthor a q := by
  cases q with
  | nil => exact le_refl _
  | cons x xs =>
      show countAuthor a xs ≤ countAuthor a (x :: xs)
      unfold countAuthor
      rw [List.filter_cons]
      split
      · simp
      · exact le_refl _

/-- A rejected `insert_message` call leaves the state exactly as the staleness
wipe left it: the only mutation on a rejection path is the wipe itself. -/
lemma reject_state_eq_wiped (config : Config) (now : Int) (st : BufferState)
    (message : Message)
    (hrej : isReject (insert_message config now st message).2 = true) :
    (insert_message config now st message).1 = wiped config now st := by
  unfold insert_message at hrej ⊢
  dsimp only at hrej ⊢
  by_cases h1 : message.message.length > config.max_message_size
  · rw [if_pos h1]
  · rw [if_neg h1] at hrej ⊢
    by_cases h2 :
        countAuthor message.author (wiped config now st).1 ≥ config.max_author_size
    · rw [if_pos h2]
    · rw [if_neg h2] at hrej ⊢
      exfalso
      split at hrej
      · simp [isReject] at hrej
      · simp [isReject] at hrej

example :
    (insert_message ⟨2, 5, 1, 5⟩ 0 ([], 0) ⟨"hi", "a"⟩).1.1 = [⟨"hi", "a"⟩] := by
  decide

example :
    statusCode (insert_message ⟨2, 5, 1, 5⟩ 0 ([⟨"hi", "a"⟩], 0) ⟨"yo", "a"⟩).2 = 429 := by
  decide

example :
    statusCode (insert_message ⟨2, 5, 1, 5⟩ 0 ([⟨"hi", "a"⟩], 0) ⟨"toolong", "b"⟩).2 = 413 := by
  decide

example :
    (run_appends ⟨2, 5, 1, 5⟩ 0
      [(0, ⟨"hi", "a"⟩), (1, ⟨"hey", "b"⟩), (2, ⟨"yo", "c"⟩)]).1
      = [⟨"hey", "b"⟩, ⟨"yo", "c"⟩] := by
  decide

example :
    (insert_message ⟨2, 5, 1, 5⟩ 10 ([⟨"hi", "a"⟩, ⟨"hey", "b"⟩], 0) ⟨"new", "a"⟩).1
      = ([⟨"new", "a"⟩], 10) := by
  decide

/-! Claim theorems. -/

/-- C1: for every sequence of append calls starting from the initial empty
buffer, `len(entries) ≤ queue_size` holds after every call (successful or
rejected): every prefix of the call sequence leaves at most `queue_size`
entries, the one-shot trim preserving the bound. -/
theorem c1_queue_size_invariant (config : Config) (init_now : Int)
    (calls : List (Int × Message)) (n : Nat) :
    ((run_appends config init_now (calls.take n)).1).length ≤ config.queue_size := by
  unfold run_appends
  exact run_fold_length_le config (calls.take n) ([], init_now) (Nat.zero_le _)

/-- C2 counterexample: a rejected append is not always a no-op. With
`max_age = 5`, a buffer holding one entry with `window_start = 0`, and a call
at `now = 10` whose message has length 7 > `max_message_size = 5`, the call is
rejected (413) yet the staleness wipe has cleared the entries and advanced
`window_start`, so the state after differs from the state before. -/
theorem c2_reject_not_always_noop :
    isReject (insert_message ⟨2, 5, 1, 5⟩ 10 ([⟨"hi", "a"⟩], 0) ⟨"toolong", "b"⟩).2
      = true ∧
    (insert_message ⟨2, 5, 1, 5⟩ 10 ([⟨"hi", "a"⟩], 0) ⟨"toolong", "b"⟩).1
      ≠ ([⟨"hi", "a"⟩], 0) ∧
    (get_messages (insert_message ⟨2, 5, 1, 5⟩ 10
        ([⟨"hi", "a"⟩], 0) ⟨"toolong", "b"⟩).1).1
      ≠ (get_messages (([⟨"hi", "a"⟩], 0) : BufferState)).1 := by
  decide

/-- C2 (amended): for every append call that returns a rejection and during
which the staleness wipe does not fire (`now - window_start ≤ max_age`), the
buffer state is completely unchanged — entries and `window_start` are the same
after the call as before it, and snapshots taken before and after the rejected
append return identical contents. -/
theorem c2_reject_noop_when_fresh (config : Config) (now : Int)
    (st : BufferState) (message : Message)
    (hfresh : now - st.2 ≤ config.max_age)
    (hrej : isReject (insert_message config now st message).2 = true) :
    (insert_message config now st message).1 = st ∧
    get_messages (insert_message config now st message).1 = get_messages st := by
  have hw : wiped config now st = st := by
    unfold wiped
    exact if_neg (not_lt.mpr hfresh)
  have key : (insert_message config now st message).1 = st := by
    rw [reject_state_eq_wiped config now st message hrej]
    exact hw
  exact ⟨key, congrArg get_messages key⟩

/-- C2 witness: with `max_age = 5`, `window_start = 0`, a call at `now = 3`
(fresh window) rejected for size leaves the empty buffer unchanged. -/
theorem c2_reject_noop_when_fresh_witness :
    ((3 : Int) - (([], 0) : BufferState).2 ≤ (⟨2, 5, 1, 5⟩ : Config).max_age) ∧
    (isReject (insert_message ⟨2, 5, 1, 5⟩ 3 ([], 0) ⟨"toolong", "b"⟩).2 = true) ∧
    ((insert_message ⟨2, 5, 1, 5⟩ 3 ([], 0) ⟨"toolong", "b"⟩).1 = ([], 0) ∧
     get_messages (insert_message ⟨2, 5, 1, 5⟩ 3 ([], 0) ⟨"toolong", "b"⟩).1
       = get_messages (([], 0) : BufferState)) :=
  ⟨by decide, by decide,
    c2_reject_noop_when_fresh ⟨2, 5, 1, 5⟩ 3 ([], 0) ⟨"toolong", "b"⟩
      (by decide) (by decide)⟩

/-- C3 counterexample: with `queue_size = 0` a stale-window append can succeed
(status 201) while the resulting entries are empty rather than exactly the new
message — the freshly pushed message is itself immediately trimmed. Here
`now - window_start = 10 > max_age = 5`. -/
theorem c3_stale_success_not_singleton :
    ((10 : Int) - (([⟨"old", "x"⟩], 0) : BufferState).2
        > (⟨0, 5, 1, 5⟩ : Config).max_age) ∧
    statusCode (insert_message ⟨0, 5, 1, 5⟩ 10 ([⟨"old", "x"⟩], 0) ⟨"hi", "a"⟩).2
      = 201 ∧
    (insert_message ⟨0, 5, 1, 5⟩ 10 ([⟨"old", "x"⟩], 0) ⟨"hi", "a"⟩).1.1
      ≠ [⟨"hi", "a"⟩] := by
  decide

/-- C3 (amended): for every append call made when `now - window_start >
max_age`, the resulting entries contain at most the newly appended message —
zero messages if the append is rejected or if `queue_size = 0`, exactly the
new message otherwise — regardless of what the buffer held before the call. -/
theorem c3_stale_append_resets (config : Config) (now : Int) (st : BufferState)
    (message : Message)
    (hstale : now - st.2 > config.max_age) :
    (insert_message config now st message).1.1 =
      (if isReject (insert_message config now st message).2 = true
          ∨ config.queue_size = 0 then ([] : List Message) else [message]) := by
  have hw : wiped config now st = ([], now) := by
    unfold wiped
    exact if_pos hstale
  unfold insert_message
  dsimp only
  rw [hw]
  by_cases h1 : message.message.length > config.max_message_size
  · rw [if_pos h1]
    simp [isReject]
  · rw [if_neg h1]
    by_cases h2 : countAuthor message.author (([], now) : BufferState).1
        ≥ config.max_author_size
    · rw [if_pos h2]
      simp [isReject]
    · rw [if_neg h2]
      dsimp only
      by_cases h3 : (([] : List Message) ++ [message]).length > config.queue_size
      · rw [if_pos h3]
        simp only [List.nil_append, List.length_cons, List.length_nil] at h3
        have hq : config.queue_size = 0 := by omega
        simp [isReject, hq]
      · rw [if_neg h3]
        simp only [List.nil_append, List.length_cons, List.length_nil,
          Nat.not_lt] at h3
        have hq : config.queue_size ≠ 0 := by omega
        simp [isReject, hq]

/-- C3 witness: a stale append (`now = 10`, `window_start = 0`, `max_age = 5`)
onto a buffer holding one old entry leaves exactly the new message when
`queue_size = 2`. -/
theorem c3_stale_append_resets_witness :
    ((10 : Int) - (([⟨"old", "x"⟩], 0) : BufferState).2
        > (⟨2, 5, 1, 5⟩ : Config).max_age) ∧
    (insert_message ⟨2, 5, 1, 5⟩ 10 ([⟨"old", "x"⟩], 0) ⟨"hi", "a"⟩).1.1 =
      (if isReject (insert_message ⟨2, 5, 1, 5⟩ 10
            ([⟨"old", "x"⟩], 0) ⟨"hi", "a"⟩).2 = true
          ∨ (⟨2, 5, 1, 5⟩ : Config).queue_size = 0
        then ([] : List Message) else [⟨"hi", "a"⟩]) :=
  ⟨by decide,
    c3_stale_append_resets ⟨2, 5, 1, 5⟩ 10 ([⟨"old", "x"⟩], 0) ⟨"hi", "a"⟩
      (by decide)⟩

/-- C4: for every author `A` and every append call starting from a buffer in
which `A`'s count is within `max_author_size` (in particular from any buffer
in which every author's count is), immediately after the call returns,
`count(entries where author == A) ≤ max_author_size`. -/
theorem c4_author_quota_invariant (config : Config) (now : Int)
    (st : BufferState) (message : Message) (A : String)
    (h : countAuthor A st.1 ≤ config.max_author_size) :
    countAuthor A ((insert_message config now st message).1.1)
      ≤ config.max_author_size := by
  have hwle : countAuthor A (wiped config now st).1 ≤ config.max_author_size :=
    le_trans (countAuthor_wiped_le config now st A) h
  unfold insert_message
  dsimp only
  split
  · exact hwle
  · split
    · exact hwle
    · rename_i h2
      have hins : countAuthor A ((wiped config now st).1 ++ [message])
          ≤ config.max_author_size := by
        rw [countAuthor_append_single]
        by_cases hA : message.author = A
        · rw [if_pos hA]
          rw [ge_iff_le, not_le] at h2
          rw [← hA]
          omega
        · rw [if_neg hA]
          simpa using hwle
      split
      · exact le_trans (countAuthor_drop_one_le A _) hins
      · exact hins

/-- C4 witness: appending `{hi, a}` to the empty buffer keeps author `a` at
one entry, within `max_author_size = 1`. -/
theorem c4_author_quota_invariant_witness :
    (countAuthor "a" (([], 0) : BufferState).1
        ≤ (⟨2, 5, 1, 5⟩ : Config).max_author_size) ∧
    countAuthor "a" ((insert_message ⟨2, 5, 1, 5⟩ 0 ([], 0) ⟨"hi", "a"⟩).1.1)
      ≤ (⟨2, 5, 1, 5⟩ : Config).max_author_size :=
  ⟨by decide,
    c4_author_quota_invariant ⟨2, 5, 1, 5⟩ 0 ([], 0) ⟨"hi", "a"⟩ "a" (by decide)⟩

/-- C5: append returns `MessageTooLarge` (wire status 413) if and only if the
message content is longer than `max_message_size`; since the size check
precedes the quota check, a message that is both too long and whose author is
at quota still yields 413. -/
theorem c5_too_large_iff (config : Config) (now : Int) (st : BufferState)
    (message : Message) :
    statusCode (insert_message config now st message).2 = 413
      ↔ message.message.length > config.max_message_size := by
  unfold insert_message
  dsimp only
  by_cases h1 : message.message.length > config.max_message_size
  · rw [if_pos h1]
    simp [statusCode, h1]
  · rw [if_neg h1]
    simp only [h1, iff_false]
    split
    · simp [statusCode]
    · split
      · simp [statusCode]
      · simp [statusCode]

/-- C6: append returns `AuthorQuotaExceeded` (wire status 429) if and only if
the message length is within `max_message_size` and the entry count for the
message's author after any staleness wipe reaches `max_author_size` — the
field named `max_author_size` bounds the per-author message count, not the
length of the author string. -/
theorem c6_quota_iff (config : Config) (now : Int) (st : BufferState)
    (message : Message) :
    statusCode (insert_message config now st message).2 = 429
      ↔ (message.message.length ≤ config.max_message_size ∧
          countAuthor message.author (wiped config now st).1
            ≥ config.max_author_size) := by
  unfold insert_message
  dsimp only
  by_cases h1 : message.message.length > config.max_message_size
  · rw [if_pos h1]
    simp [statusCode]
    omega
  · rw [if_neg h1]
    rw [not_lt] at h1
    by_cases h2 : countAuthor message.author (wiped config now st).1
        ≥ config.max_author_size
    · rw [if_pos h2]
      simp [statusCode, h1, h2]
    · rw [if_neg h2]
      split
      · simp [statusCode, h2]
      · simp [statusCode, h2]

/-- C7 counterexample: a successful append onto a buffer already holding
exactly `queue_size = 2` entries does not always evict only the oldest entry:
if the window is stale (`now - window_start = 10 > max_age = 5`), the wipe
discards both old entries and the result is just the new message, not the old
second entry followed by the new one. -/
theorem c7_full_append_not_always_shift :
    ((([⟨"a", "x"⟩, ⟨"b", "y"⟩], 0) : BufferState).1.length
        = (⟨2, 5, 10, 5⟩ : Config).queue_size) ∧
    statusCode (insert_message ⟨2, 5, 10, 5⟩ 10
        ([⟨"a", "x"⟩, ⟨"b", "y"⟩], 0) ⟨"m", "z"⟩).2 = 201 ∧
    (insert_message ⟨2, 5, 10, 5⟩ 10
        ([⟨"a", "x"⟩, ⟨"b", "y"⟩], 0) ⟨"m", "z"⟩).1.1
      ≠ [⟨"b", "y"⟩, ⟨"m", "z"⟩] := by
  decide

/-- C7 (amended): for every successful append during which the staleness wipe
does not fire (`now - window_start ≤ max_age`) on a buffer already holding
exactly `queue_size` entries (`queue_size ≥ 1`), the resulting entries equal
the old entries with the single oldest entry (index 0) removed and the new
message placed at the end, preserving the relative order of retained
entries. -/
theorem c7_full_append_evicts_oldest (config : Config) (now : Int)
    (st : BufferState) (message : Message)
    (hfresh : now - st.2 ≤ config.max_age)
    (hfull : st.1.length = config.queue_size)
    (hq : 1 ≤ config.queue_size)
    (hok : isReject (insert_message config now st message).2 = false) :
    (insert_message config now st message).1.1 = st.1.drop 1 ++ [message] := by
  have hw : wiped config now st = st := by
    unfold wiped
    exact if_neg (not_lt.mpr hfresh)
  unfold insert_message at hok ⊢
  dsimp only at hok ⊢
  rw [hw] at hok ⊢
  by_cases h1 : message.message.length > config.max_message_size
  · rw [if_pos h1] at hok
    simp [isReject] at hok
  · rw [if_neg h1] at hok ⊢
    by_cases h2 : countAuthor message.author st.1 ≥ config.max_author_size
    · rw [if_pos h2] at hok
      simp [isReject] at hok
    · rw [if_neg h2]
      have h3 : (st.1 ++ [message]).length > config.queue_size := by
        simp only [List.length_append, List.length_cons, List.length_nil]
        omega
      rw [if_pos h3]
      show (st.1 ++ [message]).drop 1 = st.1.drop 1 ++ [message]
      exact List.drop_append_of_le_length (le_trans hq (le_of_eq hfull.symm))

/-- C7 witness: a fresh-window append onto a full two-entry buffer evicts the
oldest entry and appends the new message at the end. -/
theorem c7_full_append_evicts_oldest_witness :
    ((3 : Int) - (([⟨"a", "x"⟩, ⟨"b", "y"⟩], 0) : BufferState).2
        ≤ (⟨2, 5, 10, 5⟩ : Config).max_age) ∧
    ((([⟨"a", "x"⟩, ⟨"b", "y"⟩], 0) : BufferState).1.length
        = (⟨2, 5, 10, 5⟩ : Config).queue_size) ∧
    (1 ≤ (⟨2, 5, 10, 5⟩ : Config).queue_size) ∧
    (isReject (insert_message ⟨2, 5, 10, 5⟩ 3
        ([⟨"a", "x"⟩, ⟨"b", "y"⟩], 0) ⟨"m", "z"⟩).2 = false) ∧
    (insert_message ⟨2, 5, 10, 5⟩ 3
        ([⟨"a", "x"⟩, ⟨"b", "y"⟩], 0) ⟨"m", "z"⟩).1.1
      = (([⟨"a", "x"⟩, ⟨"b", "y"⟩], 0) : BufferState).1.drop 1 ++ [⟨"m", "z"⟩] :=
  ⟨by decide, by decide, by decide, by decide,
    c7_full_append_evicts_oldest ⟨2, 5, 10, 5⟩ 3
      ([⟨"a", "x"⟩, ⟨"b", "y"⟩], 0) ⟨"m", "z"⟩
      (by decide) (by decide) (by decide) (by decide)⟩

/-- C8: the snapshot operation `get_messages` returns exactly the current
entries in insertion order and leaves the buffer state untouched — entries and
`window_start` unchanged — even when the window is stale
(`now - window_start > max_age`): the staleness wipe is never triggered by a
read. -/
theorem c8_snapshot_pure (config : Config) (now : Int) (st : BufferState)
    (_hstale : now - st.2 > config.max_age) :
    (get_messages st).1 = st.1 ∧ (get_messages st).2 = st :=
  ⟨rfl, rfl⟩

/-- C8 witness: a snapshot of a one-entry buffer long past expiry
(`now = 100`, `window_start = 0`, `max_age = 5`) still returns that entry and
leaves the state unchanged. -/
theorem c8_snapshot_pure_witness :
    ((100 : Int) - (([⟨"hi", "a"⟩], 0) : BufferState).2
        > (⟨2, 5, 1, 5⟩ : Config).max_age) ∧
    ((get_messages (([⟨"hi", "a"⟩], 0) : BufferState)).1
        = (([⟨"hi", "a"⟩], 0) : BufferState).1 ∧
      (get_messages (([⟨"hi", "a"⟩], 0) : BufferState)).2
        = (([⟨"hi", "a"⟩], 0) : BufferState)) :=
  ⟨by decide, c8_snapshot_pure ⟨2, 5, 1, 5⟩ 100 ([⟨"hi", "a"⟩], 0) (by decide)⟩

/-- C10: with `queue_size = 0` and `max_author_size ≥ 1`, an append of a
message within the size limit to the empty buffer returns success (201), yet
the entries are empty afterwards: the newly pushed message is itself the
oldest entry and is immediately trimmed, so a subsequent snapshot does not
contain the message whose append just succeeded. -/
theorem c10_zero_queue_success_empty (config : Config) (now : Int) (last : Int)
    (message : Message)
    (hq : config.queue_size = 0)
    (ha : 1 ≤ config.max_author_size)
    (hsize : message.message.length ≤ config.max_message_size) :
    statusCode (insert_message config now ([], last) message).2 = 201 ∧
    (insert_message config now ([], last) message).1.1 = [] ∧
    (get_messages (insert_message config now ([], last) message).1).1 = [] := by
  have hw1 : (wiped config now ([], last)).1 = [] := by
    unfold wiped
    split
    · rfl
    · rfl
  unfold insert_message
  dsimp only
  rw [hw1]
  rw [if_neg (not_lt.mpr hsize)]
  have h2 : ¬ countAuthor message.author ([] : List Message)
      ≥ config.max_author_size := by
    simp only [countAuthor, List.filter_nil, List.length_nil, ge_iff_le, not_le]
    omega
  rw [if_neg h2]
  have h3 : (([] : List Message) ++ [message]).length > config.queue_size := by
    simp [hq]
  rw [if_pos h3]
  exact ⟨rfl, rfl, rfl⟩

/-- C10 witness: with `queue_size = 0`, `max_author_size = 1`,
`max_message_size = 5`, appending `{hi, a}` to the empty buffer succeeds yet
leaves no entries. -/
theorem c10_zero_queue_success_empty_witness :
    ((⟨0, 5, 1, 5⟩ : Config).queue_size = 0) ∧
    (1 ≤ (⟨0, 5, 1, 5⟩ : Config).max_author_size) ∧
    ((⟨"hi", "a"⟩ : Message).message.length
        ≤ (⟨0, 5, 1, 5⟩ : Config).max_message_size) ∧
    (statusCode (insert_message ⟨0, 5, 1, 5⟩ 0 ([], 0) ⟨"hi", "a"⟩).2 = 201 ∧
      (insert_message ⟨0, 5, 1, 5⟩ 0 ([], 0) ⟨"hi", "a"⟩).1.1 = [] ∧
      (get_messages (insert_message ⟨0, 5, 1, 5⟩ 0 ([], 0) ⟨"hi", "a"⟩).1).1
        = []) :=
  ⟨by decide, by decide, by decide,
    c10_zero_queue_success_empty ⟨0, 5, 1, 5⟩ 0 0 ⟨"hi", "a"⟩
      (by decide) (by decide) (by decide)⟩

end ImChat
